import Mathlib

/-!
Verification of the Mivita terrain-prospection core (src/app.py, src/report.py)
against its specification.

The Python code is shallowly embedded:
  * a parcel geometry is modelled as a finite set of plane points
    (`Finset (ℤ × ℤ)`), so that shapely's `unary_union` becomes plain
    set-theoretic union;
  * pandas cell values are `PyScalar` (rational number or string), a missing
    cell (NaN) is `none`, so `dropna` is `filterMap id`;
  * a `GeoDataFrame` carries a geometry column plus an association list of
    named attribute columns;
  * shapely's `.area` / `.length` and geopandas' `.to_crs` are external
    library calls; they are abstracted into a `GeoEnv` of possibly-failing
    primitives (`Except String _` models a raised exception);
  * Python's `round(x, n)` is modelled exactly on rationals by `roundTo`
    (the inputs exercised here are never half-way cases, where Python's
    float rounding could differ from any exact rule);
  * `float(...)` applied to a stored cell is `pyFloat`; on strings it parses
    an optional sign, an integer part and an optional fractional part, and
    fails on anything else.
-/

/-- A scalar cell value of the dataset: a number or a string. -/
inductive PyScalar where
  | num (q : ℚ)
  | str (s : String)
deriving DecidableEq, Repr

/-- A value stored in a result mapping: a scalar or a list of scalars
(the Python code stores `values[0]` or the whole `values` list). -/
inductive PyVal where
  | scalar (v : PyScalar)
  | list (vs : List PyScalar)
deriving DecidableEq, Repr

/-- Numeric value of a decimal digit character. -/
def digitVal (c : Char) : ℕ := c.toNat - 48

/-- Value of a digit string read as a natural number (empty list gives 0;
callers require nonemptiness separately). -/
def natFromDigits (cs : List Char) : ℕ :=
  cs.foldl (fun acc c => acc * 10 + digitVal c) 0

/-- Model of Python `float(s)` on a string: optional sign, digits,
optionally a decimal point and more digits; at least one digit in total.
Anything else fails (raises `ValueError`, modelled as `none`). -/
def pyFloatString (s : String) : Option ℚ :=
  let cs := s.toList
  let signAndRest : ℚ × List Char :=
    match cs with
    | '-' :: t => (-1, t)
    | '+' :: t => (1, t)
    | _ => (1, cs)
  let sign := signAndRest.1
  let body := signAndRest.2
  let intPart := body.takeWhile Char.isDigit
  let rest := body.dropWhile Char.isDigit
  match rest with
  | [] =>
      if intPart.isEmpty then none
      else some (sign * (natFromDigits intPart : ℚ))
  | '.' :: frac =>
      if frac.all Char.isDigit && !(intPart.isEmpty && frac.isEmpty) then
        some (sign * ((natFromDigits intPart : ℚ) +
          (natFromDigits frac : ℚ) / (10 : ℚ) ^ frac.length))
      else none
  | _ => none

/-- Model of Python `float(v)` on a stored scalar. -/
def pyFloat : PyScalar → Option ℚ
  | .num q => some q
  | .str s => pyFloatString s

/-- Model of Python `round(q, n)` on exact rationals: round `q · 10^n` to the
nearest integer and scale back. -/
def roundTo (n : ℕ) (q : ℚ) : ℚ :=
  ((round (q * (10 : ℚ) ^ n) : ℤ) : ℚ) / (10 : ℚ) ^ n

/-- A parcel geometry, modelled as a finite set of plane points; the
set-theoretic union of regions becomes `Finset` union. -/
abbrev Geometry := Finset (ℤ × ℤ)

/-- shapely's `unary_union` on a list of geometries. -/
def unaryUnion (gs : List Geometry) : Geometry :=
  gs.foldr (· ∪ ·) ∅

/-- A GeoDataFrame: the geometry column plus named attribute columns.
Each attribute column lists one optional cell per row (`none` = NaN);
column names are assumed distinct, as in the source dataset. -/
structure GeoDataFrame where
  geometries : List Geometry
  cols : List (String × List (Option PyScalar))
deriving DecidableEq

/-- `gdf.columns`. -/
def GeoDataFrame.columns (g : GeoDataFrame) : List String :=
  g.cols.map Prod.fst

/-- `len(gdf)`: number of rows. -/
def GeoDataFrame.count (g : GeoDataFrame) : ℕ :=
  g.geometries.length

/-- pandas `Series.unique`: first occurrence of each distinct value, in
encounter order.  `seen` accumulates the values already emitted. -/
def uniqueFirstAux {α : Type} [DecidableEq α] (seen : List α) : List α → List α
  | [] => []
  | a :: l =>
      if a ∈ seen then uniqueFirstAux seen l
      else a :: uniqueFirstAux (a :: seen) l

/-- pandas `Series.unique` (first-occurrence order). -/
def uniqueFirst {α : Type} [DecidableEq α] (l : List α) : List α :=
  uniqueFirstAux [] l

/-- `TerrainAnalyzer.__init__`: the selected rows and the lazily-filled
`unified_geometry` cache.  `unionCalls` instruments the embedding: it counts
how many times `unify_lots` actually evaluated `unary_union`, so that
"recomputation" of the union is observable. -/
structure TerrainAnalyzer where
  gdf : GeoDataFrame
  unified_geometry : Option Geometry
  unionCalls : ℕ
deriving DecidableEq

/-- `TerrainAnalyzer.unify_lots` (report.py:29-49): reads the geometry list;
with exactly one geometry stores and returns it unchanged, otherwise stores
and returns `unary_union` of all of them.  The cache field is overwritten on
every call. -/
def unify_lots (a : TerrainAnalyzer) : Geometry × TerrainAnalyzer :=
  let geometries := a.gdf.geometries
  if geometries.length = 1 then
    let g := geometries.headI
    (g, { a with unified_geometry := some g })
  else
    let u := unaryUnion geometries
    (u, { a with unified_geometry := some u, unionCalls := a.unionCalls + 1 })

/-- The external geometry-library primitives used by the analyzer:
`.area`, `.length` and reprojection `to_crs("EPSG:31984")`.  Each may raise,
modelled by `Except String`; a failing `toMetric` models a reprojection
error on the whole dataframe. -/
structure GeoEnv where
  area : Geometry → Except String ℚ
  len : Geometry → Except String ℚ
  toMetric : Except String (Geometry → Geometry)

/-- The `try` body of `calculate_area` after the initial unify: reproject to
the metric CRS, measure the single geometry or the union, round to 2
decimals. -/
def tryArea (env : GeoEnv) (a : TerrainAnalyzer) : Except String ℚ := do
  let f ← env.toMetric
  let gsm := a.gdf.geometries.map f
  if gsm.length = 1 then
    let x ← env.area gsm.headI
    pure (roundTo 2 x)
  else
    let x ← env.area (unaryUnion gsm)
    pure (roundTo 2 x)

/-- `TerrainAnalyzer.calculate_area` (report.py:51-82): unify if needed, try
the metric path; on any exception fall back to the degree-based area of the
cached unified geometry scaled by `111320 ** 2`, rounded to 2 decimals.
A failure of `.area` inside the fallback itself propagates (is re-raised). -/
def calculate_area (env : GeoEnv) (a : TerrainAnalyzer) :
    Except String ℚ × TerrainAnalyzer :=
  let a1 := if a.unified_geometry.isNone then (unify_lots a).2 else a
  match tryArea env a1 with
  | .ok v => (.ok v, a1)
  | .error _ =>
      let a2 := if a1.unified_geometry.isNone then (unify_lots a1).2 else a1
      let g := a2.unified_geometry.getD ∅
      match env.area g with
      | .ok x => (.ok (roundTo 2 (x * 111320 ^ 2)), a2)
      | .error e => (.error e, a2)

/-- The `try` body of `calculate_perimeter`: reproject, measure boundary
length, round to 2 decimals. -/
def tryPerimeter (env : GeoEnv) (a : TerrainAnalyzer) : Except String ℚ := do
  let f ← env.toMetric
  let gsm := a.gdf.geometries.map f
  if gsm.length = 1 then
    let x ← env.len gsm.headI
    pure (roundTo 2 x)
  else
    let x ← env.len (unaryUnion gsm)
    pure (roundTo 2 x)

/-- `TerrainAnalyzer.calculate_perimeter` (report.py:84-113): same pattern as
`calculate_area`, with boundary length and the linear scale factor `111320`
(no squaring). -/
def calculate_perimeter (env : GeoEnv) (a : TerrainAnalyzer) :
    Except String ℚ × TerrainAnalyzer :=
  let a1 := if a.unified_geometry.isNone then (unify_lots a).2 else a
  match tryPerimeter env a1 with
  | .ok v => (.ok v, a1)
  | .error _ =>
      let a2 := if a1.unified_geometry.isNone then (unify_lots a1).2 else a1
      let g := a2.unified_geometry.getD ∅
      match env.len g with
      | .ok x => (.ok (roundTo 2 (x * 111320)), a2)
      | .error e => (.error e, a2)

/-- The zoning / use-category candidate column names (report.py:126-129). -/
def zoning_columns : List String :=
  ["zona", "zoneamento", "zone", "ZONA", "ZONEAMENTO",
   "uso", "uso_solo", "tipo_zona", "categoria"]

/-- The urbanistic coefficient / parameter candidate column names
(report.py:139-142). -/
def param_columns : List String :=
  ["coeficiente", "ca", "coef_aproveitamento", "taxa_ocupacao",
   "to", "gabarito", "altura_max", "recuo", "testada_min"]

/-- The bookkeeping candidate column names (report.py:175-178). -/
def info_columns : List String :=
  ["matricula", "inscricao", "proprietario", "endereco",
   "logradouro", "numero", "quadra", "lote"]

/-- The explanatory status entry produced when no zoning information was
found (report.py:151). -/
def statusEntry : String × PyVal :=
  ("status", .scalar (.str "Informações de zoneamento não disponíveis nos dados"))

/-- One iteration of the zoning-column loop (report.py:131-136):
`values = gdf[col].dropna().unique().tolist()`, record `values[0]` when a
single distinct value remains, the whole list otherwise, nothing if empty or
the column is absent. -/
def zoningEntry (g : GeoDataFrame) (col : String) : Option (String × PyVal) :=
  match g.cols.lookup col with
  | none => none
  | some vs =>
      match uniqueFirst (vs.filterMap id) with
      | [] => none
      | [v] => some (col, .scalar v)
      | v :: w :: rest => some (col, .list (v :: w :: rest))

/-- One iteration of the parameter-column loop (report.py:144-148): the same
pattern but `values = gdf[col].dropna().tolist()` — NO `.unique()`, so
duplicates survive and two agreeing rows already give a list of length 2. -/
def paramEntry (g : GeoDataFrame) (col : String) : Option (String × PyVal) :=
  match g.cols.lookup col with
  | none => none
  | some vs =>
      match vs.filterMap id with
      | [] => none
      | [v] => some (col, .scalar v)
      | v :: w :: rest => some (col, .list (v :: w :: rest))

/-- `TerrainAnalyzer.extract_zoning_info` (report.py:115-157): run both
column loops in order (insertion order of the Python dict), and if nothing
was recorded return the single status entry.  (The surrounding
`try/except` is dead in this embedding: no operation in the body can
raise.) -/
def extract_zoning_info (g : GeoDataFrame) : List (String × PyVal) :=
  let zi := zoning_columns.filterMap (zoningEntry g) ++
            param_columns.filterMap (paramEntry g)
  if zi.isEmpty then [statusEntry] else zi

/-- The `informacoes_adicionais` payload: either a mapping or the literal
string `'Não disponível'` (modelled by `unavailable`). -/
inductive AddInfo where
  | table (m : List (String × List PyScalar))
  | unavailable
deriving DecidableEq, Repr

/-- The additional info loop of `calculate_info` (report.py:180-184):
for each bookkeeping column present, the distinct non-null values (always
the whole list, even a singleton). -/
def additionalInfoTable (g : GeoDataFrame) : List (String × List PyScalar) :=
  info_columns.filterMap fun col =>
    match g.cols.lookup col with
    | none => none
    | some vs =>
        match uniqueFirst (vs.filterMap id) with
        | [] => none
        | v :: rest => some (col, v :: rest)

/-- `additional_info if additional_info else 'Não disponível'`
(report.py:192). -/
def additionalInfo (g : GeoDataFrame) : AddInfo :=
  let t := additionalInfoTable g
  if t.isEmpty then .unavailable else .table t

/-- The success payload of `calculate_info` (report.py:186-193). -/
structure Info where
  total_lotes : ℕ
  area_total_m2 : ℚ
  area_total_hectares : ℚ
  perimetro_m : ℚ
  zoneamento : List (String × PyVal)
  informacoes_adicionais : AddInfo
deriving DecidableEq

/-- The result of `calculate_info`: the success record, or the
`{'error': ..., 'total_lotes': ...}` record built in the `except` branch. -/
inductive InfoResult where
  | ok (i : Info)
  | err (msg : String) (total_lotes : ℕ)
deriving DecidableEq

/-- `TerrainAnalyzer.calculate_info` (report.py:159-203): compute area,
perimeter, zoning and additional info and assemble the record; any exception
raised by the steps (here: a re-raised measurement failure out of the
area/perimeter fallbacks) is caught and turned into an error record that
still carries `len(self.gdf)`. -/
def calculate_info (env : GeoEnv) (a : TerrainAnalyzer) :
    InfoResult × TerrainAnalyzer :=
  let (ra, a1) := calculate_area env a
  match ra with
  | .error e => (.err e a1.gdf.count, a1)
  | .ok area =>
      let (rp, a2) := calculate_perimeter env a1
      match rp with
      | .error e => (.err e a2.gdf.count, a2)
      | .ok perimeter =>
          let zoning := extract_zoning_info a2.gdf
          let addl := additionalInfo a2.gdf
          (.ok { total_lotes := a2.gdf.count
               , area_total_m2 := area
               , area_total_hectares := roundTo 4 (area / 10000)
               , perimetro_m := perimeter
               , zoneamento := zoning
               , informacoes_adicionais := addl }, a2)

/-- `ZoningCalculator.__init__` (report.py:244-251). -/
structure ZoningCalculator where
  area_terreno : ℚ
  params : List (String × PyVal)

/-- Python `dict.get(k, default)` on the parameter mapping. -/
def paramsGet (params : List (String × PyVal)) (k : String) (dflt : PyVal) : PyVal :=
  (params.lookup k).getD dflt

/-- `ca[0] if isinstance(ca, (list, tuple)) else ca`, where indexing an
empty list raises (caught by the enclosing handler, hence `none`). -/
def firstOfVal : PyVal → Option PyScalar
  | .scalar v => some v
  | .list vs => vs.head?

/-- `ZoningCalculator.calculate_buildable_area` (report.py:253-273):
`ca = params.get('coeficiente', params.get('ca', 1.0))`, take the first
element if a list, convert with `float`, multiply by the terrain area and
round to 2 decimals; any failure (unparseable value, empty list) yields
`None`. -/
def calculate_buildable_area (z : ZoningCalculator) : Option ℚ :=
  let ca := paramsGet z.params "coeficiente"
              (paramsGet z.params "ca" (.scalar (.num 1)))
  match firstOfVal ca with
  | none => none
  | some v =>
      match pyFloat v with
      | none => none
      | some q => some (roundTo 2 (z.area_terreno * q))

/-- `ZoningCalculator.calculate_footprint` (report.py:275-295): identical
pattern with `params.get('taxa_ocupacao', params.get('to', 0.5))`. -/
def calculate_footprint (z : ZoningCalculator) : Option ℚ :=
  let t := paramsGet z.params "taxa_ocupacao"
             (paramsGet z.params "to" (.scalar (.num (1 / 2))))
  match firstOfVal t with
  | none => none
  | some v =>
      match pyFloat v with
      | none => none
      | some q => some (roundTo 2 (z.area_terreno * q))

/-- The neighborhood-column candidate names tried in order by the app layer
(app.py:120). -/
def bairro_candidates : List String :=
  ["bairro", "BAIRRO", "Bairro", "nome", "NOME", "Nome", "neighborhood"]

/-- The column-resolution loop (app.py:119-123): first candidate name that
is among the dataframe's columns, `none` if no candidate matches. -/
def resolveColumn (cands cols : List String) : Option String :=
  cands.find? fun c => decide (c ∈ cols)

/-- Python's `<` on the scalar values of a column, used by `sorted`
(numbers by value, strings lexicographically; a mixed comparison would
raise in Python and here is given an arbitrary fixed answer, never exercised
on homogeneous columns). -/
def scalarLE : PyScalar → PyScalar → Bool
  | .num a, .num b => a ≤ b
  | .num _, .str _ => true
  | .str _, .num _ => false
  | .str a, .str b => a ≤ b

/-- Result of the `get_bairros` handler (app.py:108-147): the sorted list of
distinct neighborhood names, or the column-not-found error carrying the
available column names. -/
inductive BairrosResult where
  | ok (bairros : List PyScalar)
  | colNotFound (available : List String)
deriving DecidableEq

/-- `get_bairros` (app.py:117-140): resolve the neighborhood column, then
`sorted(gdf[col].dropna().unique().tolist())`; if no candidate column
exists, fail reporting `list(gdf.columns)`. -/
def get_bairros (g : GeoDataFrame) : BairrosResult :=
  match resolveColumn bairro_candidates g.columns with
  | none => .colNotFound g.columns
  | some col =>
      let vs := (g.cols.lookup col).getD []
      .ok ((uniqueFirst (vs.filterMap id)).mergeSort scalarLE)

/-- pandas positional index resolution: a non-negative index must be below
the row count, a negative index counts from the end. -/
def pyIndex (n : ℕ) (i : ℤ) : Option ℕ :=
  if 0 ≤ i then (if i < (n : ℤ) then some i.toNat else none)
  else (if 0 ≤ i + (n : ℤ) then some (i + (n : ℤ)).toNat else none)

/-- `gdf.iloc[indices]`: the sub-dataframe of the addressed rows, in order;
an out-of-bounds position raises `IndexError`.  Attribute columns are
assumed row-aligned with the geometry column. -/
def ilocRows (g : GeoDataFrame) (indices : List ℤ) : Except String GeoDataFrame :=
  match indices.mapM (pyIndex g.count) with
  | none => .error "positional indexers are out-of-bounds"
  | some idxs =>
      .ok { geometries := idxs.map fun j => g.geometries.getD j ∅
          , cols := g.cols.map fun p => (p.1, idxs.map fun j => p.2.getD j none) }

/-- A JSON response of the app layer: a success payload, or an error message
with its HTTP status code. -/
inductive ApiResult (α : Type) where
  | ok (payload : α)
  | err (msg : String) (code : ℕ)
deriving DecidableEq

/-- `get_lote_info` (app.py:252-284): reject `index < 0` or
`index >= len(store)` with the invalid-index error (HTTP 400) before
touching anything, otherwise analyze the single-row sub-dataframe
`store.iloc[[index]]`.  The read-only store is threaded through so that its
preservation is part of the contract. -/
def get_lote_info (env : GeoEnv) (store : GeoDataFrame) (index : ℤ) :
    ApiResult InfoResult × GeoDataFrame :=
  if index < 0 ∨ (store.count : ℤ) ≤ index then
    (.err "Índice de lote inválido" 400, store)
  else
    match ilocRows store [index] with
    | .error e => (.err e 500, store)
    | .ok sel =>
        let a : TerrainAnalyzer := ⟨sel, none, 0⟩
        (.ok (calculate_info env a).1, store)

/-- Success payload of `unir_lotes` (app.py:237-242). -/
structure UnirPayload where
  total_lotes_unidos : ℕ
  geometry : Geometry
  info : Info
deriving DecidableEq

/-- `unir_lotes` (app.py:201-249): reject an empty index selection with the
no-parcel-selected error (HTTP 400); otherwise select the rows, unify and
compute the summary.  When `calculate_info` produced its error record, the
handler's log line `info['area_total_m2']` raises `KeyError`, so the
request ends in the generic 500 error path. -/
def unir_lotes (env : GeoEnv) (store : GeoDataFrame) (indices : List ℤ) :
    ApiResult UnirPayload × GeoDataFrame :=
  if indices.isEmpty then
    (.err "Nenhum lote selecionado" 400, store)
  else
    match ilocRows store indices with
    | .error e => (.err e 500, store)
    | .ok sel =>
        let a : TerrainAnalyzer := ⟨sel, none, 0⟩
        let (g, a1) := unify_lots a
        match (calculate_info env a1).1 with
        | .ok i => (.ok ⟨indices.length, g, i⟩, store)
        | .err _ _ => (.err "area_total_m2" 500, store)

/-! ### Basic lemmas about the embedded primitives -/

theorem mem_unaryUnion (p : ℤ × ℤ) (gs : List Geometry) :
    p ∈ unaryUnion gs ↔ ∃ g ∈ gs, p ∈ g := by
  induction gs with
  | nil => simp [unaryUnion]
  | cons h t ih =>
      simp only [unaryUnion, List.foldr_cons, Finset.mem_union, List.mem_cons] at *
      constructor
      · rintro (hp | hp)
        · exact ⟨h, Or.inl rfl, hp⟩
        · obtain ⟨g, hg, hpg⟩ := ih.1 hp
          exact ⟨g, Or.inr hg, hpg⟩
      · rintro ⟨g, hg | hg, hpg⟩
        · exact Or.inl (hg ▸ hpg)
        · exact Or.inr (ih.2 ⟨g, hg, hpg⟩)

theorem unify_gdf (a : TerrainAnalyzer) : (unify_lots a).2.gdf = a.gdf := by
  unfold unify_lots
  dsimp only
  split <;> rfl

theorem unify_cache (a : TerrainAnalyzer) :
    (unify_lots a).2.unified_geometry = some (unify_lots a).1 := by
  unfold unify_lots
  dsimp only
  split <;> rfl

theorem unify_fst_congr {a b : TerrainAnalyzer} (h : a.gdf = b.gdf) :
    (unify_lots a).1 = (unify_lots b).1 := by
  unfold unify_lots
  rw [h]
  dsimp only
  split <;> rfl

theorem mem_uniqueFirstAux {α : Type} [DecidableEq α] (seen l : List α) (x : α) :
    x ∈ uniqueFirstAux seen l ↔ x ∈ l ∧ x ∉ seen := by
  induction l generalizing seen with
  | nil => simp [uniqueFirstAux]
  | cons a t ih =>
      by_cases h : a ∈ seen
      · simp only [uniqueFirstAux, if_pos h, ih, List.mem_cons]
        constructor
        · rintro ⟨hx, hns⟩
          exact ⟨Or.inr hx, hns⟩
        · rintro ⟨hx | hx, hns⟩
          · exact absurd (hx ▸ h) hns
          · exact ⟨hx, hns⟩
      · simp only [uniqueFirstAux, if_neg h, List.mem_cons, ih]
        constructor
        · rintro (rfl | ⟨hx, hns⟩)
          · exact ⟨Or.inl rfl, h⟩
          · exact ⟨Or.inr hx, fun hs => hns (Or.inr hs)⟩
        · rintro ⟨rfl | hx, hns⟩
          · exact Or.inl rfl
          · by_cases hxa : x = a
            · exact Or.inl hxa
            · exact Or.inr ⟨hx, fun hor => hor.elim hxa hns⟩

theorem mem_uniqueFirst {α : Type} [DecidableEq α] (l : List α) (x : α) :
    x ∈ uniqueFirst l ↔ x ∈ l := by
  simp [uniqueFirst, mem_uniqueFirstAux]

theorem nodup_uniqueFirstAux {α : Type} [DecidableEq α] (seen l : List α) :
    (uniqueFirstAux seen l).Nodup := by
  induction l generalizing seen with
  | nil => simp [uniqueFirstAux]
  | cons a t ih =>
      by_cases h : a ∈ seen
      · simpa [uniqueFirstAux, if_pos h] using ih seen
      · simp only [uniqueFirstAux, if_neg h, List.nodup_cons]
        refine ⟨fun hmem => ?_, ih _⟩
        exact ((mem_uniqueFirstAux _ _ _).1 hmem).2 (List.mem_cons_self _ _)

theorem nodup_uniqueFirst {α : Type} [DecidableEq α] (l : List α) :
    (uniqueFirst l).Nodup :=
  nodup_uniqueFirstAux [] l

theorem calculate_area_snd (env : GeoEnv) (a : TerrainAnalyzer) :
    (calculate_area env a).2
      = if a.unified_geometry.isNone then (unify_lots a).2 else a := by
  cases h : a.unified_geometry with
  | none =>
      simp only [calculate_area, h, Option.isNone_none, if_true, unify_cache,
        Option.isNone_some, Bool.false_eq_true, if_false]
      split
      · rfl
      · split <;> rfl
  | some u =>
      simp only [calculate_area, h, Option.isNone_some, Bool.false_eq_true, if_false]
      split
      · rfl
      · split <;> rfl

theorem calculate_area_gdf (env : GeoEnv) (a : TerrainAnalyzer) :
    (calculate_area env a).2.gdf = a.gdf := by
  rw [calculate_area_snd]
  split
  · exact unify_gdf a
  · rfl

theorem calculate_perimeter_snd (env : GeoEnv) (a : TerrainAnalyzer) :
    (calculate_perimeter env a).2
      = if a.unified_geometry.isNone then (unify_lots a).2 else a := by
  cases h : a.unified_geometry with
  | none =>
      simp only [calculate_perimeter, h, Option.isNone_none, if_true, unify_cache,
        Option.isNone_some, Bool.false_eq_true, if_false]
      split
      · rfl
      · split <;> rfl
  | some u =>
      simp only [calculate_perimeter, h, Option.isNone_some, Bool.false_eq_true, if_false]
      split
      · rfl
      · split <;> rfl

theorem calculate_perimeter_gdf (env : GeoEnv) (a : TerrainAnalyzer) :
    (calculate_perimeter env a).2.gdf = a.gdf := by
  rw [calculate_perimeter_snd]
  split
  · exact unify_gdf a
  · rfl

/-! ### Concrete fixtures used by witnesses and counterexamples -/

/-- A one-point parcel geometry. -/
def gA : Geometry := {((0 : ℤ), (0 : ℤ))}

/-- Another one-point parcel geometry. -/
def gB : Geometry := {((1 : ℤ), (1 : ℤ))}

/-- A dataframe with a single parcel and no attribute columns. -/
def gdfOne : GeoDataFrame := ⟨[gA], []⟩

/-- A dataframe with two parcels and no attribute columns. -/
def gdfTwo : GeoDataFrame := ⟨[gA, gB], []⟩

/-- A fresh analyzer over the single-parcel dataframe. -/
def anOne : TerrainAnalyzer := ⟨gdfOne, none, 0⟩

/-- A fresh analyzer over the two-parcel dataframe. -/
def anTwo : TerrainAnalyzer := ⟨gdfTwo, none, 0⟩

/-- An environment whose reprojection raises while measurement works. -/
def envReprojFail : GeoEnv :=
  ⟨fun _ => .ok 4, fun _ => .ok 6, .error "reprojection failed"⟩

/-- A fully working environment (identity reprojection, constant measures). -/
def envOk : GeoEnv :=
  ⟨fun _ => .ok 4, fun _ => .ok 6, .ok id⟩

/-! ### Claims -/

/-- C1: for a selection of exactly one parcel `unify_lots` returns that
parcel's geometry unchanged, and for a selection of two or more parcels it
returns the set-theoretic union of all selected geometries (a point lies in
the result iff it lies in some selected geometry). -/
theorem unify_lots_spec (a : TerrainAnalyzer) :
    (∀ g, a.gdf.geometries = [g] → (unify_lots a).1 = g) ∧
    (2 ≤ a.gdf.geometries.length →
      ∀ p, p ∈ (unify_lots a).1 ↔ ∃ g ∈ a.gdf.geometries, p ∈ g) := by
  constructor
  · intro g h
    simp [unify_lots, h]
  · intro hlen p
    have hne : a.gdf.geometries.length ≠ 1 := by omega
    simp [unify_lots, hne, mem_unaryUnion]

/-- Witness for C1 at concrete selections: a singleton selection returns the
parcel's geometry, a two-parcel selection satisfies the union
characterization. -/
theorem unify_lots_spec_witness :
    (unify_lots anOne).1 = gA ∧
    (((0 : ℤ), (0 : ℤ)) ∈ (unify_lots anTwo).1 ↔
      ∃ g ∈ anTwo.gdf.geometries, ((0 : ℤ), (0 : ℤ)) ∈ g) :=
  ⟨(unify_lots_spec anOne).1 gA rfl,
   (unify_lots_spec anTwo).2 (by decide) ((0 : ℤ), (0 : ℤ))⟩

/-- C7 counterexample: `unify_lots` is not cached.  On a fresh two-parcel
analyzer the first call evaluates `unary_union` once; the second call, far
from reusing the cache, evaluates it again (the instrumentation counter
reaches 2, where the claimed behaviour would leave it at 1). -/
theorem unify_lots_recompute_counterexample :
    (unify_lots anTwo).2.unionCalls = 1 ∧
    (unify_lots (unify_lots anTwo).2).2.unionCalls = 2 := by
  constructor <;> rfl

/-- C7 (amended): `unify_lots` is idempotent in its result value: a second
call on the updated analyzer returns the same geometry and leaves the same
cached value, although the union is recomputed rather than read from the
cache. -/
theorem unify_lots_value_idempotent (a : TerrainAnalyzer) :
    (unify_lots (unify_lots a).2).1 = (unify_lots a).1 ∧
    (unify_lots (unify_lots a).2).2.unified_geometry = some (unify_lots a).1 := by
  have h1 : (unify_lots (unify_lots a).2).1 = (unify_lots a).1 :=
    unify_fst_congr (unify_gdf a)
  exact ⟨h1, (unify_cache _).trans (congrArg some h1)⟩

/-- Association-list lookup into `filterMap f cands` finds the entry that
`f` produced for `c`, provided `f` always keys an entry by its own
candidate. -/
theorem lookup_filterMap_keyed {β : Type} (f : String → Option (String × β))
    (hkeys : ∀ d e, f d = some e → e.1 = d) :
    ∀ (cands : List String) (c : String) (v : β),
      c ∈ cands → f c = some (c, v) → (cands.filterMap f).lookup c = some v := by
  intro cands
  induction cands with
  | nil =>
      intro c v hc _
      cases hc
  | cons d t ih =>
      intro c v hc hf
      by_cases hcd : c = d
      · subst hcd
        simp only [List.filterMap_cons, hf]
        exact List.lookup_cons_self
      · have hct : c ∈ t := by
          cases hc with
          | head => exact absurd rfl hcd
          | tail _ h => exact h
        cases hd : f d with
        | none => simpa only [List.filterMap_cons, hd] using ih c v hct hf
        | some e =>
            obtain ⟨k, w⟩ := e
            have hk : k = d := hkeys d (k, w) hd
            have hb : (c == k) = false := by
              rw [hk]
              exact beq_false_of_ne hcd
            simp only [List.filterMap_cons, hd, List.lookup_cons, hb]
            exact ih c v hct hf

/-- Lookup skips a prefix none of whose entries carry the key. -/
theorem lookup_append_right_of_keys {β : Type} (A B : List (String × β)) (c : String)
    (h : ∀ e ∈ A, e.1 ≠ c) : (A ++ B).lookup c = B.lookup c := by
  have hA : A.lookup c = none :=
    List.lookup_eq_none_iff.2 fun p hp => bne_iff_ne.2 fun hcp => h p hp hcp.symm
  rw [List.lookup_append, hA, Option.none_or]

/-- Lookup found in the prefix is found in the concatenation. -/
theorem lookup_append_left_of_some {β : Type} (A B : List (String × β)) (c : String)
    (v : β) (h : A.lookup c = some v) : (A ++ B).lookup c = some v := by
  rw [List.lookup_append, h]
  rfl

theorem zoningEntry_key (g : GeoDataFrame) (col : String) (e : String × PyVal)
    (h : zoningEntry g col = some e) : e.1 = col := by
  unfold zoningEntry at h
  split at h
  · cases h
  · split at h
    · cases h
    · cases h
      rfl
    · cases h
      rfl

theorem paramEntry_key (g : GeoDataFrame) (col : String) (e : String × PyVal)
    (h : paramEntry g col = some e) : e.1 = col := by
  unfold paramEntry at h
  split at h
  · cases h
  · split at h
    · cases h
    · cases h
      rfl
    · cases h
      rfl

/-- A successful lookup in the raw two-loop result survives the final
empty-check of `extract_zoning_info`. -/
theorem extract_lookup_of_lookup (g : GeoDataFrame) (col : String) (val : PyVal)
    (h : ((zoning_columns.filterMap (zoningEntry g)) ++
          (param_columns.filterMap (paramEntry g))).lookup col = some val) :
    (extract_zoning_info g).lookup col = some val := by
  unfold extract_zoning_info
  dsimp only
  have hne : ((zoning_columns.filterMap (zoningEntry g)) ++
      (param_columns.filterMap (paramEntry g))).isEmpty ≠ true := by
    intro hempty
    rw [List.isEmpty_iff.1 hempty] at h
    cases h
  rw [if_neg hne]
  exact h

/-- C6: when reprojection to the metric CRS fails, `calculate_area` returns
the degree-based area of the unified geometry scaled by `111320²` and
`calculate_perimeter` the degree-based length scaled by `111320`, each
rounded to 2 decimals, as ordinary `.ok` results. -/
theorem metric_fallback_spec (env : GeoEnv) (a : TerrainAnalyzer)
    (hfresh : a.unified_geometry = none)
    (e : String) (hfail : env.toMetric = .error e)
    (xA xL : ℚ)
    (hA : env.area (unify_lots a).1 = .ok xA)
    (hL : env.len (unify_lots a).1 = .ok xL) :
    (calculate_area env a).1 = .ok (roundTo 2 (xA * 111320 ^ 2)) ∧
    (calculate_perimeter env a).1 = .ok (roundTo 2 (xL * 111320)) := by
  constructor
  · have htry : tryArea env (unify_lots a).2 = .error e := by
      unfold tryArea
      rw [hfail]
      rfl
    simp only [calculate_area, hfresh, Option.isNone_none, if_true, htry,
      unify_cache, Option.isNone_some, Bool.false_eq_true, if_false,
      Option.getD_some, hA]
  · have htry : tryPerimeter env (unify_lots a).2 = .error e := by
      unfold tryPerimeter
      rw [hfail]
      rfl
    simp only [calculate_perimeter, hfresh, Option.isNone_none, if_true, htry,
      unify_cache, Option.isNone_some, Bool.false_eq_true, if_false,
      Option.getD_some, hL]

/-- Witness for C6 at a concrete two-parcel analyzer and a concrete failing
environment. -/
theorem metric_fallback_spec_witness :
    (calculate_area envReprojFail anTwo).1 = .ok (roundTo 2 (4 * 111320 ^ 2)) ∧
    (calculate_perimeter envReprojFail anTwo).1 = .ok (roundTo 2 (6 * 111320)) :=
  metric_fallback_spec envReprojFail anTwo rfl "reprojection failed" rfl 4 6 rfl rfl

/-- C3: `calculate_info` never raises: for every environment and analyzer it
yields either a success record whose `total_lotes` is the row count, whose
`area_total_hectares` is `area_total_m2 / 10000` rounded to 4 decimals and
whose zoning/additional fields come from the selection, or an error record
that still carries the row count. -/
theorem calculate_info_spec (env : GeoEnv) (a : TerrainAnalyzer) :
    (∃ i, (calculate_info env a).1 = .ok i ∧
       i.total_lotes = a.gdf.count ∧
       i.area_total_hectares = roundTo 4 (i.area_total_m2 / 10000) ∧
       i.zoneamento = extract_zoning_info a.gdf ∧
       i.informacoes_adicionais = additionalInfo a.gdf) ∨
    (∃ e, (calculate_info env a).1 = .err e a.gdf.count) := by
  unfold calculate_info
  rcases hA : calculate_area env a with ⟨ra, a1⟩
  have hg1 : a1.gdf = a.gdf := by
    have := calculate_area_gdf env a
    rw [hA] at this
    exact this
  cases ra with
  | error e =>
      right
      exact ⟨e, by simp [hg1, GeoDataFrame.count]⟩
  | ok area =>
      rcases hP : calculate_perimeter env a1 with ⟨rp, a2⟩
      have hg2 : a2.gdf = a.gdf := by
        have := calculate_perimeter_gdf env a1
        rw [hP] at this
        rw [this, hg1]
      cases rp with
      | error e =>
          right
          exact ⟨e, by simp [hP, hg2, GeoDataFrame.count]⟩
      | ok perimeter =>
          left
          refine ⟨⟨a.gdf.count, area, roundTo 4 (area / 10000), perimeter,
                   extract_zoning_info a.gdf, additionalInfo a.gdf⟩,
                  ?_, rfl, rfl, rfl, rfl⟩
          dsimp only
          rw [hP]
          dsimp only
          rw [hg2]

/-- Two parcels that agree on the urbanistic parameter `coeficiente`
(both cells hold the number 2). -/
def gdfAgree : GeoDataFrame :=
  ⟨[gA, gB], [("coeficiente", [some (.num 2), some (.num 2)])]⟩

/-- C2 counterexample: on a selection whose two parcels agree on the
recognized parameter column `coeficiente`, `extract_zoning_info` records the
full duplicated list `[2, 2]`, not the single agreed value 2 — the parameter
loop (report.py:144-148) omits `.unique()`. -/
theorem extract_zoning_info_counterexample :
    (extract_zoning_info gdfAgree).lookup "coeficiente"
        = some (.list [.num 2, .num 2]) ∧
    (extract_zoning_info gdfAgree).lookup "coeficiente"
        ≠ some (.scalar (.num 2)) := by
  constructor
  · rfl
  · decide

/-- C2 (amended): for a zoning/use-category column present in the dataset,
`extract_zoning_info` records the single distinct value when all selected
parcels agree and the list of distinct values when they differ; for an
urbanistic-parameter column it records a single value only when exactly one
non-null cell exists, and otherwise the full per-row list of non-null values
(duplicates included, even when all parcels agree); and when no recognized
column exists at all, the result is exactly the single explanatory status
entry. -/
theorem extract_zoning_info_spec (g : GeoDataFrame) :
    (∀ col ∈ zoning_columns, ∀ vs, g.cols.lookup col = some vs →
       (∀ v, uniqueFirst (vs.filterMap id) = [v] →
          (extract_zoning_info g).lookup col = some (.scalar v)) ∧
       (∀ v w rest, uniqueFirst (vs.filterMap id) = v :: w :: rest →
          (extract_zoning_info g).lookup col = some (.list (v :: w :: rest)))) ∧
    (∀ col ∈ param_columns, ∀ vs, g.cols.lookup col = some vs →
       (∀ v, vs.filterMap id = [v] →
          (extract_zoning_info g).lookup col = some (.scalar v)) ∧
       (∀ v w rest, vs.filterMap id = v :: w :: rest →
          (extract_zoning_info g).lookup col = some (.list (v :: w :: rest)))) ∧
    ((∀ col ∈ zoning_columns ++ param_columns, g.cols.lookup col = none) →
       extract_zoning_info g = [statusEntry]) := by
  refine ⟨?_, ?_, ?_⟩
  · intro col hcol vs hvs
    constructor
    · intro v hu
      have hentry : zoningEntry g col = some (col, .scalar v) := by
        unfold zoningEntry
        rw [hvs]
        dsimp only
        rw [hu]
      exact extract_lookup_of_lookup g col _
        (lookup_append_left_of_some _ _ _ _
          (lookup_filterMap_keyed _ (zoningEntry_key g) _ _ _ hcol hentry))
    · intro v w rest hu
      have hentry : zoningEntry g col = some (col, .list (v :: w :: rest)) := by
        unfold zoningEntry
        rw [hvs]
        dsimp only
        rw [hu]
      exact extract_lookup_of_lookup g col _
        (lookup_append_left_of_some _ _ _ _
          (lookup_filterMap_keyed _ (zoningEntry_key g) _ _ _ hcol hentry))
  · intro col hcol vs hvs
    have hdisj : ∀ c ∈ param_columns, c ∉ zoning_columns := by decide
    have hskip : ∀ e ∈ zoning_columns.filterMap (zoningEntry g), e.1 ≠ col := by
      intro e he heq
      obtain ⟨d, hd, hfd⟩ := List.mem_filterMap.1 he
      exact hdisj col hcol (heq ▸ (zoningEntry_key g d e hfd ▸ hd))
    constructor
    · intro v hu
      have hentry : paramEntry g col = some (col, .scalar v) := by
        unfold paramEntry
        rw [hvs]
        dsimp only
        rw [hu]
      refine extract_lookup_of_lookup g col _ ?_
      rw [lookup_append_right_of_keys _ _ _ hskip]
      exact lookup_filterMap_keyed _ (paramEntry_key g) _ _ _ hcol hentry
    · intro v w rest hu
      have hentry : paramEntry g col = some (col, .list (v :: w :: rest)) := by
        unfold paramEntry
        rw [hvs]
        dsimp only
        rw [hu]
      refine extract_lookup_of_lookup g col _ ?_
      rw [lookup_append_right_of_keys _ _ _ hskip]
      exact lookup_filterMap_keyed _ (paramEntry_key g) _ _ _ hcol hentry
  · intro hnone
    have hZ : zoning_columns.filterMap (zoningEntry g) = [] := by
      refine List.filterMap_eq_nil_iff.2 fun col hcol => ?_
      have h := hnone col (List.mem_append_left _ hcol)
      unfold zoningEntry
      rw [h]
    have hP : param_columns.filterMap (paramEntry g) = [] := by
      refine List.filterMap_eq_nil_iff.2 fun col hcol => ?_
      have h := hnone col (List.mem_append_right _ hcol)
      unfold paramEntry
      rw [h]
    unfold extract_zoning_info
    rw [hZ, hP]
    rfl

/-- A dataframe carrying one zoning column with two distinct values and no
recognized column for the status case. -/
def gdfZon : GeoDataFrame :=
  ⟨[gA, gB], [("zona", [some (.str "ZR1"), some (.str "ZR2")])]⟩

/-- Witness for the amended C2: concrete selections exercising the
single-distinct-value case, the duplicated-parameter case and the
no-recognized-column status case. -/
theorem extract_zoning_info_spec_witness :
    (extract_zoning_info gdfZon).lookup "zona"
        = some (.list [.str "ZR1", .str "ZR2"]) ∧
    (extract_zoning_info gdfAgree).lookup "coeficiente"
        = some (.list [.num 2, .num 2]) ∧
    extract_zoning_info gdfTwo = [statusEntry] :=
  ⟨((extract_zoning_info_spec gdfZon).1 "zona" (by decide) _ rfl).2
      (.str "ZR1") (.str "ZR2") [] rfl,
   ((extract_zoning_info_spec gdfAgree).2.1 "coeficiente" (by decide) _ rfl).2
      (.num 2) (.num 2) [] rfl,
   (extract_zoning_info_spec gdfTwo).2.2 (by decide)⟩

/-- C4: `calculate_buildable_area` defaults the coefficient to 1.0 when
neither `coeficiente` nor `ca` is a parameter, and `calculate_footprint`
defaults the occupation rate to 0.5 when neither `taxa_ocupacao` nor `to`
is; with an empty parameter set and terrain area 1000 they return 1000 and
500; and an unparseable stored value yields the unavailable marker `none`
rather than an exception. -/
theorem zoning_calculator_defaults_spec :
    (∀ z : ZoningCalculator, z.params.lookup "coeficiente" = none →
       z.params.lookup "ca" = none →
       calculate_buildable_area z = some (roundTo 2 (z.area_terreno * 1))) ∧
    (∀ z : ZoningCalculator, z.params.lookup "taxa_ocupacao" = none →
       z.params.lookup "to" = none →
       calculate_footprint z = some (roundTo 2 (z.area_terreno * (1 / 2)))) ∧
    calculate_buildable_area ⟨1000, []⟩ = some 1000 ∧
    calculate_footprint ⟨1000, []⟩ = some 500 ∧
    (∀ (z : ZoningCalculator) (s : String),
       z.params.lookup "coeficiente" = none →
       z.params.lookup "ca" = some (.scalar (.str s)) →
       pyFloatString s = none → calculate_buildable_area z = none) ∧
    (∀ (z : ZoningCalculator) (s : String),
       z.params.lookup "taxa_ocupacao" = none →
       z.params.lookup "to" = some (.scalar (.str s)) →
       pyFloatString s = none → calculate_footprint z = none) := by
  refine ⟨?_, ?_, ?_, ?_, ?_, ?_⟩
  case refine_3 =>
    show some (roundTo 2 ((1000 : ℚ) * 1)) = some 1000
    norm_num [roundTo, round_eq]
  case refine_4 =>
    show some (roundTo 2 ((1000 : ℚ) * (1 / 2))) = some 500
    norm_num [roundTo, round_eq]
  · intro z h1 h2
    simp [calculate_buildable_area, paramsGet, h1, h2, firstOfVal, pyFloat]
  · intro z h1 h2
    simp [calculate_footprint, paramsGet, h1, h2, firstOfVal, pyFloat]
  · intro z s h1 h2 hs
    simp [calculate_buildable_area, paramsGet, h1, h2, firstOfVal, pyFloat, hs]
  · intro z s h1 h2 hs
    simp [calculate_footprint, paramsGet, h1, h2, firstOfVal, pyFloat, hs]

/-- Witness for C4: the defaults at terrain area 1000 with an empty
parameter set, and the unavailable marker on the unparseable value
`"abc"`. -/
theorem zoning_calculator_defaults_spec_witness :
    calculate_buildable_area ⟨(1000 : ℚ), []⟩ = some (roundTo 2 ((1000 : ℚ) * 1)) ∧
    calculate_footprint ⟨(1000 : ℚ), []⟩ = some (roundTo 2 ((1000 : ℚ) * (1 / 2))) ∧
    calculate_buildable_area ⟨(1000 : ℚ), [("ca", .scalar (.str "abc"))]⟩ = none ∧
    calculate_footprint ⟨(1000 : ℚ), [("to", .scalar (.str "abc"))]⟩ = none :=
  ⟨zoning_calculator_defaults_spec.1 _ rfl rfl,
   zoning_calculator_defaults_spec.2.1 _ rfl rfl,
   zoning_calculator_defaults_spec.2.2.2.2.1 _ "abc" rfl rfl rfl,
   zoning_calculator_defaults_spec.2.2.2.2.2 _ "abc" rfl rfl rfl⟩

/-- C10: the canonical key shadows the abbreviation.  Whenever the
parameter set binds `coeficiente` to a string that does not parse as a
number, `calculate_buildable_area` returns `none` — regardless of any `ca`
binding, valid or not; `calculate_footprint` behaves the same for
`taxa_ocupacao` and `to`. -/
theorem canonical_key_shadows_abbreviation (z : ZoningCalculator) (s : String)
    (hs : pyFloatString s = none) :
    (z.params.lookup "coeficiente" = some (.scalar (.str s)) →
       calculate_buildable_area z = none) ∧
    (z.params.lookup "taxa_ocupacao" = some (.scalar (.str s)) →
       calculate_footprint z = none) := by
  constructor
  · intro h
    simp [calculate_buildable_area, paramsGet, h, firstOfVal, pyFloat, hs]
  · intro h
    simp [calculate_footprint, paramsGet, h, firstOfVal, pyFloat, hs]

/-- Witness for C10: the canonical keys hold the unparseable string `"N/A"`
while the abbreviations hold the valid number 2; the result is still the
unavailable marker. -/
theorem canonical_key_shadows_abbreviation_witness :
    ([("coeficiente", PyVal.scalar (.str "N/A")), ("ca", PyVal.scalar (.num 2))].lookup "ca"
        = some (PyVal.scalar (.num 2))) ∧
    calculate_buildable_area
      ⟨(1000 : ℚ), [("coeficiente", .scalar (.str "N/A")), ("ca", .scalar (.num 2))]⟩
        = none ∧
    calculate_footprint
      ⟨(1000 : ℚ), [("taxa_ocupacao", .scalar (.str "N/A")), ("to", .scalar (.num 2))]⟩
        = none :=
  ⟨rfl,
   (canonical_key_shadows_abbreviation
      ⟨(1000 : ℚ), [("coeficiente", .scalar (.str "N/A")), ("ca", .scalar (.num 2))]⟩
      "N/A" rfl).1 rfl,
   (canonical_key_shadows_abbreviation
      ⟨(1000 : ℚ), [("taxa_ocupacao", .scalar (.str "N/A")), ("to", .scalar (.num 2))]⟩
      "N/A" rfl).2 rfl⟩

theorem scalarLE_trans : ∀ a b c : PyScalar,
    scalarLE a b = true → scalarLE b c = true → scalarLE a c = true := by
  intro a b c hab hbc
  cases a <;> cases b <;> cases c <;> simp_all [scalarLE] <;>
    exact le_trans hab hbc

theorem scalarLE_total : ∀ a b : PyScalar, scalarLE a b || scalarLE b a := by
  intro a b
  cases a <;> cases b <;> simp [scalarLE, le_total]

/-- The column-resolution loop takes the first candidate present among the
columns: any prefix of absent candidates is skipped. -/
theorem resolveColumn_first (pre post cols : List String) (c : String)
    (hpre : ∀ d ∈ pre, d ∉ cols) (hc : c ∈ cols) :
    resolveColumn (pre ++ c :: post) cols = some c := by
  induction pre with
  | nil =>
      simp only [resolveColumn, List.nil_append]
      exact List.find?_cons_of_pos _ (by simpa using hc)
  | cons d t ih =>
      have hd : d ∉ cols := hpre d (List.mem_cons_self _ _)
      simp only [resolveColumn, List.cons_append] at *
      rw [List.find?_cons_of_neg _ (by simpa using hd)]
      exact ih fun e he => hpre e (List.mem_cons_of_mem _ he)

/-- A dataframe whose schema has both `BAIRRO` and `nome`; `BAIRRO` holds
two non-null names out of order and a null. -/
def gdfBairros : GeoDataFrame :=
  ⟨[gA, gB],
   [("BAIRRO", [some (.str "Centro"), some (.str "Aldeia"), none]),
    ("nome", [some (.str "x"), some (.str "y"), none])]⟩

/-- C5: column resolution is order-sensitive — the first candidate present
in the schema wins, so a schema containing `BAIRRO` (but not `bairro`)
resolves `["bairro", "BAIRRO", "nome"]` to `BAIRRO`; the resolved column's
distinct non-null values are returned sorted ascending and without
duplicates; and when no candidate exists the handler fails with the
column-not-found result carrying the available column names. -/
theorem get_bairros_spec :
    (∀ (pre post cols : List String) (c : String),
       (∀ d ∈ pre, d ∉ cols) → c ∈ cols →
       resolveColumn (pre ++ c :: post) cols = some c) ∧
    (∀ cols : List String, "BAIRRO" ∈ cols → "bairro" ∉ cols →
       resolveColumn ["bairro", "BAIRRO", "nome"] cols = some "BAIRRO") ∧
    (∀ (g : GeoDataFrame) (col : String),
       resolveColumn bairro_candidates g.columns = some col →
       ∀ vs, g.cols.lookup col = some vs →
       ∃ l, get_bairros g = .ok l ∧
         l.Pairwise (fun a b => scalarLE a b = true) ∧
         l.Nodup ∧
         ∀ x, x ∈ l ↔ x ∈ vs.filterMap id) ∧
    (∀ g : GeoDataFrame,
       resolveColumn bairro_candidates g.columns = none →
       get_bairros g = .colNotFound g.columns) := by
  refine ⟨resolveColumn_first, ?_, ?_, ?_⟩
  · intro cols hB hb
    exact resolveColumn_first ["bairro"] ["nome"] cols "BAIRRO"
      (by simpa using hb) hB
  · intro g col hres vs hvs
    refine ⟨(uniqueFirst (vs.filterMap id)).mergeSort scalarLE, ?_, ?_, ?_, ?_⟩
    · unfold get_bairros
      rw [hres]
      dsimp only
      rw [hvs]
      rfl
    · simpa using List.sorted_mergeSort scalarLE_trans scalarLE_total
        (uniqueFirst (vs.filterMap id))
    · exact (List.mergeSort_perm _ _).nodup_iff.2 (nodup_uniqueFirst _)
    · intro x
      rw [List.mem_mergeSort, mem_uniqueFirst]
  · intro g hres
    unfold get_bairros
    rw [hres]

/-- Witness for C5 on a concrete dataframe: resolution picks `BAIRRO` ahead
of `nome`, and the handler returns the distinct non-null names sorted
ascending; plus the not-found branch on a schema with no candidate. -/
theorem get_bairros_spec_witness :
    resolveColumn ["bairro", "BAIRRO", "nome"] ["BAIRRO", "nome"] = some "BAIRRO" ∧
    (∃ l, get_bairros gdfBairros = .ok l ∧
       l.Pairwise (fun a b => scalarLE a b = true) ∧
       l.Nodup ∧
       ∀ x, x ∈ l ↔ x ∈ [PyScalar.str "Centro", PyScalar.str "Aldeia"]) ∧
    get_bairros gdfTwo = .colNotFound gdfTwo.columns :=
  ⟨get_bairros_spec.2.1 ["BAIRRO", "nome"] (by decide) (by decide),
   get_bairros_spec.2.2.1 gdfBairros "BAIRRO" rfl
     [some (.str "Centro"), some (.str "Aldeia"), none] rfl,
   get_bairros_spec.2.2.2 gdfTwo rfl⟩

/-- C9: selection-invalid inputs fail with their distinct invalid-input
errors and leave the store unchanged — `get_lote_info` rejects any index
with `index < 0` or `index ≥ count` with the invalid-index error (HTTP
400), and `unir_lotes` rejects an empty selection with the
no-parcel-selected error (HTTP 400). -/
theorem selection_invalid_spec (env : GeoEnv) (store : GeoDataFrame) :
    (∀ index : ℤ, index < 0 ∨ (store.count : ℤ) ≤ index →
       get_lote_info env store index
         = (.err "Índice de lote inválido" 400, store)) ∧
    unir_lotes env store []
      = (.err "Nenhum lote selecionado" 400, store) := by
  constructor
  · intro index h
    unfold get_lote_info
    rw [if_pos h]
  · rfl

/-- Witness for C9 on the concrete two-parcel store: index 5 is out of
range, index -1 is negative, and the empty selection is rejected. -/
theorem selection_invalid_spec_witness :
    get_lote_info envOk gdfTwo 5
      = (.err "Índice de lote inválido" 400, gdfTwo) ∧
    get_lote_info envOk gdfTwo (-1)
      = (.err "Índice de lote inválido" 400, gdfTwo) ∧
    unir_lotes envOk gdfTwo []
      = (.err "Nenhum lote selecionado" 400, gdfTwo) :=
  ⟨(selection_invalid_spec envOk gdfTwo).1 5 (Or.inr (by decide)),
   (selection_invalid_spec envOk gdfTwo).1 (-1) (Or.inl (by decide)),
   (selection_invalid_spec envOk gdfTwo).2⟩
